import Mathlib

/-!
Verification of the customer-search-agent core pipeline.

Shallow embedding of the Python sources:
  * `main.py` — input validation (`validate_search_query`, `validate_user_id`),
    the orchestrator entry point `invoke`, and `_create_error_response`;
  * `services/knowledge_retrieval.py` — `retrieve_and_generate`,
    `_process_retrieval_response`, `_extract_citations`,
    `_calculate_confidence_score`, `_clean_summary_text`;
  * `models/data_models.py` — the result records.

Python strings are modelled as `List Char` (one element per code point, so
`len` is `List.length`).  Python floats in the confidence computation are
modelled as exact rationals `ℚ`: every value the score can take is a small
decimal and the additive structure of the code is preserved exactly.
External effects (the Bedrock retrieval API, the personalisation agent,
service construction) are supplied as explicit oracle values, with `Except`
modelling a Python call that may raise.
-/

abbrev Str := List Char

/-- The characters Python's `str.isspace` accepts: these are exactly the
characters removed by `str.strip()` with no argument and matched by the
regex class `\s` on `str` patterns. -/
def isPySpace (c : Char) : Bool :=
  (0x09 ≤ c.toNat && c.toNat ≤ 0x0d) || (0x1c ≤ c.toNat && c.toNat ≤ 0x1f) ||
  c.toNat = 0x20 || c.toNat = 0x85 || c.toNat = 0xa0 || c.toNat = 0x1680 ||
  (0x2000 ≤ c.toNat && c.toNat ≤ 0x200a) || c.toNat = 0x2028 || c.toNat = 0x2029 ||
  c.toNat = 0x202f || c.toNat = 0x205f || c.toNat = 0x3000

/-- Python `s.strip()`: drop whitespace from both ends. -/
def pystrip (s : Str) : Str :=
  ((s.dropWhile isPySpace).reverse.dropWhile isPySpace).reverse

/-- Python `s.strip(cs)`: drop characters of `cs` from both ends. -/
def stripSet (cs : Str) (s : Str) : Str :=
  ((s.dropWhile cs.contains).reverse.dropWhile cs.contains).reverse

/-- Python `s.lower()` on the ASCII range (every constant this code
compares case-insensitively against is ASCII). -/
def pyLower (s : Str) : Str := s.map Char.toLower

/-- Python `c.isalnum()` on the Latin-1 range: ASCII digits and letters plus
the Latin-1 letters and numeric signs whose Unicode category is a letter or
number.  Code points above U+00FF are outside the modelled character domain
(Python also accepts further Unicode letters and digits there). -/
def isPyAlnumLatin1 (c : Char) : Bool :=
  (0x30 ≤ c.toNat && c.toNat ≤ 0x39) || (0x41 ≤ c.toNat && c.toNat ≤ 0x5a) ||
  (0x61 ≤ c.toNat && c.toNat ≤ 0x7a) ||
  c.toNat = 0xaa || c.toNat = 0xb2 || c.toNat = 0xb3 || c.toNat = 0xb5 ||
  c.toNat = 0xb9 || c.toNat = 0xba || c.toNat = 0xbc || c.toNat = 0xbd ||
  c.toNat = 0xbe || (0xc0 ≤ c.toNat && c.toNat ≤ 0xd6) ||
  (0xd8 ≤ c.toNat && c.toNat ≤ 0xf6) || (0xf8 ≤ c.toNat && c.toNat ≤ 0xff)

/-- Membership in the character class `[A-Za-z0-9_-]` (the set named by the
spec for user ids); used only to state claims, not by the embedded code. -/
def inAsciiIdSet (c : Char) : Bool :=
  (0x41 ≤ c.toNat && c.toNat ≤ 0x5a) || (0x61 ≤ c.toNat && c.toNat ≤ 0x7a) ||
  (0x30 ≤ c.toNat && c.toNat ≤ 0x39) || c.toNat = 0x2d || c.toNat = 0x5f

/-- Model of `main.validate_search_query`: reject empty / blank / over-long queries,
then strip control characters (code points below 32 other than tab, newline,
carriage return).  `Except.error` models `raise ValueError(msg)`. -/
def validate_search_query (query : Str) : Except Str Str :=
  if query = [] then .error "Search query must be a non-empty string".data
  else
    let q := pystrip query
    if q.length = 0 then .error "Search query cannot be empty".data
    else if 1000 < q.length then
      .error "Search query too long (maximum 1000 characters)".data
    else
      .ok (q.filter (fun c => 32 ≤ c.toNat || c = '\t' || c = '\n' || c = '\r'))

/-- The per-character test of `validate_user_id`: alphanumeric, or a hyphen
or underscore. -/
def validUserIdChar (c : Char) : Bool :=
  isPyAlnumLatin1 c || c = '-' || c = '_'

/-- Model of `main.validate_user_id`: trim, reject empty / over-long ids, then require
every character alphanumeric or hyphen/underscore. -/
def validate_user_id (user_id : Str) : Except Str Str :=
  let u := pystrip user_id
  if u.length = 0 then .error "User ID cannot be empty".data
  else if 255 < u.length then .error "User ID too long (maximum 255 characters)".data
  else if u.all validUserIdChar then .ok u
  else .error "User ID contains invalid characters (only alphanumeric, hyphens, and underscores allowed)".data

/-- Model of `models.data_models.RetrievalResult`. -/
structure RetrievalResult where
  summary : Str
  citations : List Str
  confidence_score : ℚ
deriving DecidableEq

/-- A reference's `location` payload: each field models the presence of the
corresponding key (`s3Location` / `webLocation` / `confluenceLocation`),
carrying the `uri` / `url` value inside it (a missing inner key behaves as
the empty string, which is how the source reads it with a defaulted get). -/
structure Location where
  s3Location : Option Str
  webLocation : Option Str
  confluenceLocation : Option Str

/-- A retrieved reference: its location and its free-form `metadata` mapping
(in iteration order); a `none` value models a non-string metadata value. -/
structure RetrievedRef where
  location : Location
  metadata : List (Str × Option Str)

/-- One element of the response's `citations` list. -/
structure CitationBlock where
  retrievedReferences : List RetrievedRef

/-- The parts of the RetrieveAndGenerate API response the service reads:
the generated output text and the citations list. -/
structure ApiResponse where
  output_text : Str
  citations : List CitationBlock

/-- The `elif` chain over the three location shapes: the first key present
supplies the candidate URI (possibly empty). -/
def locationUri (loc : Location) : Option Str :=
  match loc.s3Location with
  | some uri => some uri
  | none =>
    match loc.webLocation with
    | some url => some url
    | none =>
      match loc.confluenceLocation with
      | some url => some url
      | none => none

/-- The metadata scan: a key that case-insensitively matches
url/uri/link/source with a string value starting `http://` or `https://`
contributes that value. -/
def metaCandidate (kv : Str × Option Str) : Option Str :=
  match kv.2 with
  | some v =>
    if (pyLower kv.1 = "url".data || pyLower kv.1 = "uri".data ||
        pyLower kv.1 = "link".data || pyLower kv.1 = "source".data) &&
       ("http://".data.isPrefixOf v || "https://".data.isPrefixOf v)
    then some v else none
  | none => none

/-- Guarded append (append u to acc unless already present), used throughout
the citation extraction. -/
def addIfNew (acc : List Str) (u : Str) : List Str :=
  if u ∈ acc then acc else acc ++ [u]

/-- The body of the inner `for ref in retrieved_refs` loop: the location
candidate (if non-empty and unseen), then the metadata scan. -/
def processRef (acc : List Str) (ref : RetrievedRef) : List Str :=
  let acc1 :=
    match locationUri ref.location with
    | some u => if u ≠ [] ∧ u ∉ acc then acc ++ [u] else acc
    | none => acc
  ref.metadata.foldl (fun a kv =>
    match metaCandidate kv with
    | some v => if v ∉ a then a ++ [v] else a
    | none => a) acc1

/-- The final `unique_citations` pass of `_extract_citations`: first-seen
deduplication (`seen` membership coincides with membership in the output). -/
def dedupFirstSeen (l : List Str) : List Str :=
  l.foldl addIfNew []

/-- Model of `KnowledgeRetrievalService._extract_citations`. -/
def extract_citations (resp : ApiResponse) : List Str :=
  let citations := resp.citations.foldl
    (fun acc cb => cb.retrievedReferences.foldl processRef acc) []
  dedupFirstSeen citations

/-- The raw URI stream of a single reference, before any deduplication:
the location candidate when non-empty, then the qualifying metadata values.
Used to state first-seen order; derived from the same loop body. -/
def refUris (ref : RetrievedRef) : List Str :=
  (match locationUri ref.location with
   | some u => if u ≠ [] then [u] else []
   | none => []) ++ ref.metadata.filterMap metaCandidate

/-- The raw URI stream of a whole response, in loop order. -/
def uriStream (resp : ApiResponse) : List Str :=
  (resp.citations.map (fun cb => (cb.retrievedReferences.map refUris).flatten)).flatten

/-- Python's binary `min` on numbers. -/
def pymin (a b : ℚ) : ℚ := if a ≤ b then a else b

/-- Python's binary `max` on numbers. -/
def pymax (a b : ℚ) : ℚ := if b ≤ a then a else b

/-- Model of `KnowledgeRetrievalService._calculate_confidence_score`, with floats as
exact rationals.  `text.strip()` is evaluated as in the source; the length
bonuses read the trimmed length. -/
def calculate_confidence_score (text : Str) (citations : List Str) : ℚ :=
  if pystrip text = [] then 0
  else
    let score : ℚ := 0
    let score := score + 0.3
    let score := if 100 < (pystrip text).length then score + 0.2 else score
    let score := if 300 < (pystrip text).length then score + 0.1 else score
    let score := if 0 < citations.length then score + 0.2 else score
    let score := if 2 < citations.length then score + 0.1 else score
    let score := if 5 < citations.length then score + 0.1 else score
    pymin 1 (pymax 0 score)

/-- Left-to-right scan removing non-overlapping case-insensitive matches of
`phrase`; structurally recursive on a fuel that bounds the remaining text
length (each step consumes at least one character, so `fuel ≥ text.length`
makes the fuel irrelevant). -/
def removeAllCIAux (phrase : Str) : Nat → Str → Str
  | 0, t => t
  | _ + 1, [] => []
  | fuel + 1, c :: rest =>
    if phrase ≠ [] ∧ pyLower ((c :: rest).take phrase.length) = pyLower phrase then
      removeAllCIAux phrase fuel ((c :: rest).drop phrase.length)
    else
      c :: removeAllCIAux phrase fuel rest

/-- Case-insensitive removal of every occurrence of `phrase`
(`re.sub(re.escape(phrase), "", text, flags=IGNORECASE)`): scan left to
right, removing non-overlapping matches. -/
def removeAllCI (phrase : Str) (text : Str) : Str :=
  removeAllCIAux phrase text.length text

/-- One pass of whitespace-run collapsing; the flag records whether the scan
is inside a whitespace run (whose first character already emitted `' '`). -/
def collapseWSAux : Bool → Str → Str
  | _, [] => []
  | inRun, c :: rest =>
    if isPySpace c then
      if inRun then collapseWSAux true rest
      else ' ' :: collapseWSAux true rest
    else c :: collapseWSAux false rest

/-- Python regex substitution collapsing each maximal whitespace run in the
string to a single space (the cleanup step after phrase removal). -/
def collapseWS (s : Str) : Str :=
  collapseWSAux false s

/-- The fixed unwanted-phrase list of `_clean_summary_text`, in source
order. -/
def unwantedPhrases : List Str :=
  ["search results".data, "based on the search results".data,
   "according to the search results".data, "from the search results".data]

/-- Model of `KnowledgeRetrievalService._clean_summary_text`. -/
def clean_summary_text (text : Str) : Str :=
  if text = [] then []
  else
    let cleaned := pystrip text
    let cleaned := unwantedPhrases.foldl (fun t p => removeAllCI p t) cleaned
    let cleaned := pystrip (collapseWS cleaned)
    stripSet ".,;: ".data cleaned

/-- The four "no information" phrases checked (lower-cased) against the
generated text. -/
def noInfoPhrases : List Str :=
  ["no information found".data, "no relevant information".data,
   "i don".data ++ Char.ofNat 39 :: "t have information".data,
   "no data available".data]

/-- The fixed no-result sentinel. -/
def sentinelResult : RetrievalResult :=
  ⟨"No AI summary could be found for the specified query".data, [], 0⟩

/-- Model of `KnowledgeRetrievalService._process_retrieval_response`: extract the
generated text; sentinel if it is blank or a no-information phrase;
otherwise citations and confidence come from the (pre-cleanup) generated
text and the summary is the cleaned text. -/
def process_retrieval_response (resp : ApiResponse) : RetrievalResult :=
  let generated_text := pystrip resp.output_text
  if generated_text = [] ∨ pyLower generated_text ∈ noInfoPhrases then
    sentinelResult
  else
    let citations := extract_citations resp
    let confidence_score := calculate_confidence_score generated_text citations
    let cleaned_summary := clean_summary_text generated_text
    ⟨cleaned_summary, citations, confidence_score⟩

/-- Model of `KnowledgeRetrievalService.retrieve_and_generate`: blank queries short-
circuit to the sentinel; the external API call is an oracle whose `error`
case models any raised `ClientError`/`Exception`, absorbed into the
sentinel; a successful response is processed. -/
def retrieve_and_generate (query : Str) (api : Except Unit ApiResponse) :
    RetrievalResult :=
  if pystrip query = [] then sentinelResult
  else
    match api with
    | .error _ => sentinelResult
    | .ok resp => process_retrieval_response resp

/-- The additive part of the confidence score as a function of trimmed text
length and citation count (each `score += bonus` guard is independent of the
accumulated score, so the chain is the sum of its indicators). -/
def scoreRaw (n c : Nat) : ℚ :=
  0.3 + (if 100 < n then 0.2 else 0) + (if 300 < n then 0.1 else 0) +
  (if 0 < c then 0.2 else 0) + (if 2 < c then 0.1 else 0) +
  (if 5 < c then 0.1 else 0)

/-- Model of `models.data_models.PersonalisationResult`. -/
structure PersonalisationResult where
  content : Str
  tool_used : Str
  success : Bool

/-- A JSON-ish payload value: a string, `None`, or any other (non-string)
value. -/
inductive PyIn where
  | pyStr (s : Str)
  | pyNone
  | pyOther
deriving DecidableEq

/-- The raw request payload: the two keys the `SearchRequest` model reads,
each possibly absent. -/
structure Payload where
  search_query : Option PyIn
  user_id : Option PyIn
deriving DecidableEq

/-- Model of `models.data_models.SearchRequest` after pydantic validation. -/
structure SearchRequest where
  search_query : Str
  user_id : Option Str
deriving DecidableEq

/-- Pydantic parsing `SearchRequest(**payload)`: `search_query` must be a
string; `user_id` may be absent, `None`, or a string.  `error` models
`ValidationError`. -/
def parseSearchRequest (p : Payload) : Except Unit SearchRequest :=
  match p.search_query with
  | some (.pyStr q) =>
    match p.user_id with
    | none => .ok ⟨q, none⟩
    | some .pyNone => .ok ⟨q, none⟩
    | some (.pyStr u) => .ok ⟨q, some u⟩
    | some .pyOther => .error ()
  | _ => .error ()

/-- A value of the returned JSON object: the `personalised`/`summary` fields
are strings, `links` is a list of strings. -/
inductive PyVal where
  | str (s : Str)
  | list (l : List Str)
deriving DecidableEq

/-- The returned JSON object, as an ordered key/value list. -/
abbrev PyDict := List (Str × PyVal)

/-- Model of `main._create_error_response`. -/
def create_error_response (msg : Str) : PyDict :=
  [("personalised".data, .str []), ("summary".data, .str msg),
   ("links".data, .list [])]

/-- Model of the dumped `SearchResponse`: the three-field response object. -/
def searchResponseDump (personalised summary : Str) (links : List Str) : PyDict :=
  [("personalised".data, .str personalised), ("summary".data, .str summary),
   ("links".data, .list links)]

/-- The external effects of one `invoke` call:
  * `svcRaises` — an unanticipated exception between validation and the
    knowledge-base call (e.g. service construction failing); reaches the
    outermost handler;
  * `kbRaises` — the `knowledge_svc.retrieve_and_generate` call itself
    raising (absorbed by the per-call handler, leaving `retrieval_result`
    as `None`);
  * `kbApi` — the Bedrock API oracle fed to `retrieve_and_generate`;
  * `pers` — the personalisation call: `error` models it raising, `ok` its
    `PersonalisationResult`. -/
structure Oracles where
  svcRaises : Bool
  kbRaises : Bool
  kbApi : Except Unit ApiResponse
  pers : Except Unit PersonalisationResult

/-- The `try:` body of `invoke` (after the configuration check and payload
parse): input validation, knowledge retrieval, optional personalisation,
response assembly.  An `error` result is an exception escaping to the
outermost handler. -/
def invokeBody (payload : Payload) (o : Oracles) : Except Unit PyDict :=
  match parseSearchRequest payload with
  | .error _ =>
    .ok (create_error_response
      "Invalid request format. Please check your input parameters.".data)
  | .ok request =>
    match validate_search_query request.search_query with
    | .error msg => .ok (create_error_response ("Invalid input: ".data ++ msg))
    | .ok sanitized_query =>
      let validated : Except Str (Option Str) :=
        match request.user_id with
        | some u => if u ≠ [] then (validate_user_id u).map some else .ok none
        | none => .ok none
      match validated with
      | .error msg => .ok (create_error_response ("Invalid input: ".data ++ msg))
      | .ok validated_user_id =>
        if o.svcRaises then .error ()
        else
          let retrieval_result : Option RetrievalResult :=
            if o.kbRaises then none
            else some (retrieve_and_generate sanitized_query o.kbApi)
          let personalised_content : Str :=
            match validated_user_id with
            | some _ =>
              match o.pers with
              | .error _ => []
              | .ok pr => if pr.success ∧ pr.content ≠ [] then pr.content else []
            | none => []
          match retrieval_result with
          | some r =>
            if r.summary ≠ [] then
              .ok (searchResponseDump personalised_content r.summary r.citations)
            else
              .ok (searchResponseDump personalised_content
                "No AI summary could be found for the specified query".data [])
          | none =>
            .ok (searchResponseDump personalised_content
              "No AI summary could be found for the specified query".data [])

/-- Model of `main.invoke`: configuration check first (its failure yields the fixed
configuration-error response), then the request pipeline, with the
outermost `except Exception` converting anything escaping `invokeBody` into
the fixed retry-suggesting error response. -/
def invoke (cfgOK : Bool) (payload : Payload) (o : Oracles) : PyDict :=
  if ¬cfgOK then
    create_error_response "Service configuration error. Please contact support.".data
  else
    match invokeBody payload o with
    | .ok d => d
    | .error _ =>
      create_error_response
        "An unexpected error occurred while processing your request. Please try again.".data

/-- Modelled from the spec's reference confidence formula: 0.0 if the text
is empty or blank; otherwise a base of 0.3, plus 0.2 if the trimmed text
length exceeds 100 characters, plus a further 0.1 if it exceeds 300, plus
0.2 if the citation count exceeds 0, plus a further 0.1 if it exceeds 2,
plus a further 0.1 if it exceeds 5, with the result capped to [0, 1].
Stated only to compare against `calculate_confidence_score`. -/
def specConfidenceFormula (text : Str) (citations : List Str) : ℚ :=
  if pystrip text = [] then 0
  else
    pymin 1 (pymax 0
      (0.3 + (if 100 < (pystrip text).length then 0.2 else 0)
        + (if 300 < (pystrip text).length then 0.1 else 0)
        + (if 0 < citations.length then 0.2 else 0)
        + (if 2 < citations.length then 0.1 else 0)
        + (if 5 < citations.length then 0.1 else 0)))

/-- The confidence score as a function of text length and citation count
alone: the score of a canonical non-blank text of `n` letters with `c`
citations (the score reads the text only through its trimmed length and
blankness, and the citations only through their count). -/
def confidenceAt (n c : Nat) : ℚ :=
  calculate_confidence_score (List.replicate n 'a') (List.replicate c "x".data)

/-- A concrete response whose references produce the URI stream
[a, b, a, c] (four s3 locations with one duplicate). -/
def dupUriResp : ApiResponse :=
  ⟨"Summary of the docs".data,
   [⟨[⟨⟨some "s3://bucket/a".data, none, none⟩, []⟩,
      ⟨⟨some "s3://bucket/b".data, none, none⟩, []⟩,
      ⟨⟨some "s3://bucket/a".data, none, none⟩, []⟩,
      ⟨⟨some "s3://bucket/c".data, none, none⟩, []⟩]⟩]⟩

/-! ## Lemmas -/

lemma calc_eq_raw (text : Str) (cits : List Str) (h : ¬pystrip text = []) :
    calculate_confidence_score text cits
      = pymin 1 (pymax 0 (scoreRaw (pystrip text).length cits.length)) := by
  simp only [calculate_confidence_score, scoreRaw, if_neg h]
  split_ifs <;> ring_nf

lemma dropWhile_replicate_a (n : Nat) :
    (List.replicate n 'a').dropWhile isPySpace = List.replicate n 'a' := by
  cases n with
  | zero => rfl
  | succ m => simp [List.replicate, List.dropWhile, show isPySpace 'a' = false from rfl]

lemma pystrip_replicate_a (n : Nat) :
    pystrip (List.replicate n 'a') = List.replicate n 'a' := by
  unfold pystrip
  rw [dropWhile_replicate_a, List.reverse_replicate, dropWhile_replicate_a,
    List.reverse_replicate]

/-- Error responses have the standard three-field shape. -/
lemma create_error_eq_dump (msg : Str) :
    create_error_response msg = searchResponseDump [] msg [] := rfl

lemma pymin_eq_min (a b : ℚ) : pymin a b = min a b := (min_def a b).symm

lemma pymax_eq_max (a b : ℚ) : pymax a b = max a b := by
  rw [max_comm, max_def]; rfl

lemma scoreRaw_ge (n c : Nat) : 0.3 ≤ scoreRaw n c := by
  unfold scoreRaw; split_ifs <;> norm_num

lemma scoreRaw_le (n c : Nat) : scoreRaw n c ≤ 1 := by
  unfold scoreRaw; split_ifs <;> norm_num

lemma ite_bonus_mono (k m₁ m₂ : Nat) (q : ℚ) (hq : 0 ≤ q) (h : m₁ ≤ m₂) :
    (if k < m₁ then q else 0) ≤ (if k < m₂ then q else 0) := by
  split_ifs with h1 h2
  · exact le_refl q
  · omega
  · exact hq
  · exact le_refl 0

lemma scoreRaw_mono_left (n₁ n₂ c : Nat) (h : n₁ ≤ n₂) :
    scoreRaw n₁ c ≤ scoreRaw n₂ c := by
  unfold scoreRaw
  have h1 := ite_bonus_mono 100 n₁ n₂ 0.2 (by norm_num) h
  have h2 := ite_bonus_mono 300 n₁ n₂ 0.1 (by norm_num) h
  gcongr

lemma scoreRaw_mono_right (n c₁ c₂ : Nat) (h : c₁ ≤ c₂) :
    scoreRaw n c₁ ≤ scoreRaw n c₂ := by
  unfold scoreRaw
  have h1 := ite_bonus_mono 0 c₁ c₂ 0.2 (by norm_num) h
  have h2 := ite_bonus_mono 2 c₁ c₂ 0.1 (by norm_num) h
  have h3 := ite_bonus_mono 5 c₁ c₂ 0.1 (by norm_num) h
  gcongr

lemma clamp_mono (x y : ℚ) (h : x ≤ y) :
    pymin 1 (pymax 0 x) ≤ pymin 1 (pymax 0 y) := by
  rw [pymin_eq_min, pymin_eq_min, pymax_eq_max, pymax_eq_max]
  exact min_le_min (le_refl 1) (max_le_max (le_refl 0) h)

lemma clamp_of_range (x : ℚ) (h0 : 0 ≤ x) (h1 : x ≤ 1) :
    pymin 1 (pymax 0 x) = x := by
  rw [pymin_eq_min, pymax_eq_max, max_eq_right h0, min_eq_right h1]

/-- The confidence score of a non-blank text in closed form. -/
lemma calc_clamped (text : Str) (cits : List Str) (h : ¬pystrip text = []) :
    calculate_confidence_score text cits
      = scoreRaw (pystrip text).length cits.length := by
  rw [calc_eq_raw text cits h]
  exact clamp_of_range _ (le_trans (by norm_num) (scoreRaw_ge _ _)) (scoreRaw_le _ _)

lemma calc_pos (text : Str) (cits : List Str) (h : ¬pystrip text = []) :
    0.3 ≤ calculate_confidence_score text cits := by
  rw [calc_clamped text cits h]; exact scoreRaw_ge _ _

lemma calc_nonneg (text : Str) (cits : List Str) :
    0 ≤ calculate_confidence_score text cits := by
  by_cases h : pystrip text = []
  · unfold calculate_confidence_score; rw [if_pos h]
  · exact le_trans (by norm_num) (calc_pos text cits h)

lemma calc_le_one (text : Str) (cits : List Str) :
    calculate_confidence_score text cits ≤ 1 := by
  by_cases h : pystrip text = []
  · unfold calculate_confidence_score; rw [if_pos h]; norm_num
  · rw [calc_clamped text cits h]; exact scoreRaw_le _ _

lemma metadata_foldl_eq (kvs : List (Str × Option Str)) (acc : List Str) :
    kvs.foldl (fun a kv =>
      match metaCandidate kv with
      | some v => if v ∉ a then a ++ [v] else a
      | none => a) acc
      = (kvs.filterMap metaCandidate).foldl addIfNew acc := by
  induction kvs generalizing acc with
  | nil => rfl
  | cons kv rest ih =>
    rw [List.foldl_cons, List.filterMap_cons]
    cases h : metaCandidate kv with
    | none => simp only [h, ih]
    | some v =>
      simp only [h, List.foldl_cons, ih]
      congr 1
      unfold addIfNew
      by_cases hv : v ∈ acc
      · rw [if_neg (by simp [hv]), if_pos hv]
      · rw [if_pos hv, if_neg (by simp [hv])]

lemma processRef_eq (acc : List Str) (ref : RetrievedRef) :
    processRef acc ref = (refUris ref).foldl addIfNew acc := by
  unfold processRef refUris
  rw [List.foldl_append, metadata_foldl_eq]
  congr 1
  cases h : locationUri ref.location with
  | none => rfl
  | some u =>
    by_cases hu : u = []
    · simp [hu, addIfNew]
    · by_cases hm : u ∈ acc
      · simp [hu, hm, addIfNew]
      · simp [hu, hm, addIfNew]

lemma refs_foldl_eq (refs : List RetrievedRef) (acc : List Str) :
    refs.foldl processRef acc
      = ((refs.map refUris).flatten).foldl addIfNew acc := by
  induction refs generalizing acc with
  | nil => rfl
  | cons r rest ih =>
    rw [List.foldl_cons, List.map_cons, List.flatten_cons, List.foldl_append,
      processRef_eq, ih]

lemma blocks_foldl_eq (cbs : List CitationBlock) (acc : List Str) :
    cbs.foldl (fun a cb => cb.retrievedReferences.foldl processRef a) acc
      = ((cbs.map (fun cb => (cb.retrievedReferences.map refUris).flatten)).flatten).foldl
          addIfNew acc := by
  induction cbs generalizing acc with
  | nil => rfl
  | cons cb rest ih =>
    rw [List.foldl_cons, List.map_cons, List.flatten_cons, List.foldl_append,
      refs_foldl_eq, ih]

lemma foldl_addIfNew_nodup (l : List Str) (acc : List Str) (h : acc.Nodup) :
    (l.foldl addIfNew acc).Nodup := by
  induction l generalizing acc with
  | nil => exact h
  | cons x rest ih =>
    rw [List.foldl_cons]
    apply ih
    unfold addIfNew
    by_cases hx : x ∈ acc
    · rwa [if_pos hx]
    · rw [if_neg hx]
      simpa [List.nodup_append] using ⟨h, hx⟩

lemma dedupFirstSeen_nodup (l : List Str) : (dedupFirstSeen l).Nodup :=
  foldl_addIfNew_nodup l [] List.nodup_nil

lemma foldl_addIfNew_of_nodup (l : List Str) : ∀ acc, l.Nodup →
    (∀ x ∈ l, x ∉ acc) → l.foldl addIfNew acc = acc ++ l := by
  induction l with
  | nil => intro acc _ _; simp
  | cons x rest ih =>
    intro acc hl hdisj
    have hx : addIfNew acc x = acc ++ [x] := by
      unfold addIfNew
      rw [if_neg (hdisj x (List.mem_cons_self x rest))]
    rw [List.foldl_cons, hx, ih (acc ++ [x]) (List.Nodup.of_cons hl) ?_]
    · simp
    · intro y hy hyIn
      rcases List.mem_append.mp hyIn with hyacc | hys
      · exact hdisj y (List.mem_cons_of_mem x hy) hyacc
      · rw [List.mem_singleton] at hys
        exact (List.nodup_cons.mp hl).1 (hys ▸ hy)

lemma dedupFirstSeen_of_nodup (l : List Str) (hl : l.Nodup) :
    dedupFirstSeen l = l := by
  unfold dedupFirstSeen
  rw [foldl_addIfNew_of_nodup l [] hl (by intro x _ hx; exact List.not_mem_nil x hx)]
  simp

lemma extract_citations_eq (resp : ApiResponse) :
    extract_citations resp = dedupFirstSeen (uriStream resp) := by
  unfold extract_citations uriStream
  rw [blocks_foldl_eq]
  have h1 : ((resp.citations.map
      (fun cb => (cb.retrievedReferences.map refUris).flatten)).flatten).foldl
        addIfNew ([] : List Str)
      = dedupFirstSeen ((resp.citations.map
          (fun cb => (cb.retrievedReferences.map refUris).flatten)).flatten) := rfl
  rw [h1, dedupFirstSeen_of_nodup _ (dedupFirstSeen_nodup _)]

lemma inAsciiIdSet_validChar (c : Char) (h : inAsciiIdSet c = true) :
    validUserIdChar c = true := by
  simp only [inAsciiIdSet, Bool.or_eq_true, Bool.and_eq_true,
    decide_eq_true_eq] at h
  simp only [validUserIdChar, isPyAlnumLatin1, Bool.or_eq_true,
    Bool.and_eq_true, decide_eq_true_eq]
  by_cases h45 : c.toNat = 45
  · refine Or.inl (Or.inr ?_)
    rw [← Char.ofNat_toNat c, h45]
  · by_cases h95 : c.toNat = 95
    · refine Or.inr ?_
      rw [← Char.ofNat_toNat c, h95]
    · refine Or.inl (Or.inl ?_)
      omega

/-- Every arm of `invokeBody` is either an escaping exception or an `ok`
carrying a three-field response object. -/
lemma invokeBody_shape (payload : Payload) (o : Oracles) :
    invokeBody payload o = .error ()
    ∨ ∃ p s l, invokeBody payload o = .ok (searchResponseDump p s l) := by
  simp only [invokeBody]
  repeat' split
  all_goals first
    | (left; rfl)
    | (right; exact ⟨_, _, _, rfl⟩)

lemma confidenceAt_eq (n c : Nat) :
    confidenceAt n c = if n = 0 then 0 else pymin 1 (pymax 0 (scoreRaw n c)) := by
  unfold confidenceAt
  by_cases hn : n = 0
  · subst hn
    rw [if_pos rfl]
    rfl
  · have hrep : ¬pystrip (List.replicate n 'a') = [] := by
      rw [pystrip_replicate_a]
      simp [hn]
    rw [calc_eq_raw _ _ hrep, if_neg hn, pystrip_replicate_a,
      List.length_replicate, List.length_replicate]

lemma mem_dropWhile_of_not (p : Char → Bool) (l : Str) (c : Char)
    (hc : c ∈ l) (hp : ¬p c) : c ∈ l.dropWhile p := by
  induction l with
  | nil => exact absurd hc (List.not_mem_nil c)
  | cons a rest ih =>
    rw [List.dropWhile_cons]
    by_cases ha : p a
    · rw [if_pos ha]
      rcases List.mem_cons.mp hc with rfl | hrest
      · exact absurd ha hp
      · exact ih hrest
    · rw [if_neg ha]
      exact hc

lemma all_space_of_pystrip_nil (s : Str) (h : pystrip s = []) :
    ∀ c ∈ s, isPySpace c := by
  unfold pystrip at h
  rw [List.reverse_eq_nil_iff, List.dropWhile_eq_nil_iff] at h
  intro c hc
  by_contra hcp
  exact hcp (h c (List.mem_reverse.mpr (mem_dropWhile_of_not _ _ _ hc hcp)))

/-- Stripping an already-stripped non-blank string cannot make it blank:
the stripped string starts with a non-whitespace character. -/
lemma pystrip_pystrip_ne (t : Str) (h : ¬pystrip t = []) :
    ¬pystrip (pystrip t) = [] := by
  intro h2
  have h2' := all_space_of_pystrip_nil _ h2
  have hBne : (t.dropWhile isPySpace).reverse.dropWhile isPySpace ≠ [] := by
    intro hb
    apply h
    unfold pystrip
    rw [hb]
    rfl
  have hpos : 0 < ((t.dropWhile isPySpace).reverse.dropWhile isPySpace).length :=
    List.length_pos.mpr hBne
  apply List.dropWhile_get_zero_not (p := isPySpace) (t.dropWhile isPySpace).reverse hpos
  apply h2'
  unfold pystrip
  rw [List.mem_reverse]
  exact List.get_mem _ 0 hpos

/-! ## Claims -/

/-- C1: for every configuration state, payload and oracle outcome (including
configuration failure, payload/validation failure, and an unanticipated
internal exception reaching the outermost handler), `invoke` returns
normally and its value is an object with exactly the three fields
`personalised` (a string), `summary` (a string) and `links` (a list of
strings), none absent or null. -/
theorem invoke_never_raises_and_three_fields (cfgOK : Bool) (payload : Payload)
    (o : Oracles) :
    ∃ p s l, invoke cfgOK payload o = searchResponseDump p s l := by
  unfold invoke
  split
  · exact ⟨[], _, [], rfl⟩
  · rcases invokeBody_shape payload o with h | ⟨p, s, l, h⟩
    · rw [h]
      exact ⟨[], _, [], rfl⟩
    · rw [h]
      exact ⟨p, s, l, rfl⟩

/-- C3: `retrieve_and_generate` is total (it is a Lean function) and yields
exactly the no-result sentinel — summary the fixed no-result string,
citations empty, confidence 0 — when (a) the query is blank after trimming,
(b) the external retrieval call raises, or (c) the generated text is blank
after trimming or case-insensitively equals one of the four fixed
no-information phrases. -/
theorem retrieve_sentinel_paths :
    (∀ (q : Str) (api : Except Unit ApiResponse), pystrip q = [] →
        retrieve_and_generate q api = sentinelResult)
    ∧ (∀ q : Str, retrieve_and_generate q (.error ()) = sentinelResult)
    ∧ (∀ (q : Str) (resp : ApiResponse),
        pystrip resp.output_text = []
          ∨ pyLower (pystrip resp.output_text) ∈ noInfoPhrases →
        retrieve_and_generate q (.ok resp) = sentinelResult) := by
  refine ⟨?_, ?_, ?_⟩
  · intro q api h
    unfold retrieve_and_generate
    rw [if_pos h]
  · intro q
    unfold retrieve_and_generate
    by_cases hq : pystrip q = []
    · rw [if_pos hq]
    · rw [if_neg hq]
  · intro q resp h
    unfold retrieve_and_generate
    by_cases hq : pystrip q = []
    · rw [if_pos hq]
    · rw [if_neg hq]
      simp only [process_retrieval_response]
      rw [if_pos h]

theorem retrieve_sentinel_paths_witness :
    pystrip "  ".data = []
    ∧ retrieve_and_generate "  ".data (.error ()) = sentinelResult
    ∧ (pystrip "No Information Found".data = []
        ∨ pyLower (pystrip "No Information Found".data) ∈ noInfoPhrases)
    ∧ retrieve_and_generate "query".data
        (.ok ⟨"No Information Found".data, []⟩) = sentinelResult :=
  ⟨by decide,
   retrieve_sentinel_paths.1 "  ".data (.error ()) (by decide),
   by decide,
   retrieve_sentinel_paths.2.2 "query".data ⟨"No Information Found".data, []⟩
     (by decide)⟩

/-- C4: a parsed request whose `search_query` trims to more than 1000
characters fails validation, and `invoke` returns the fixed format-error
object: `personalised` empty, `summary` the fixed too-long message (no
internal exception detail), `links` empty. -/
theorem long_query_error_response (payload : Payload) (o : Oracles)
    (request : SearchRequest)
    (hp : parseSearchRequest payload = .ok request)
    (hlen : 1000 < (pystrip request.search_query).length) :
    invoke true payload o
      = create_error_response
          ("Invalid input: ".data
            ++ "Search query too long (maximum 1000 characters)".data) := by
  have hne : ¬request.search_query = [] := by
    intro h0
    rw [h0] at hlen
    simp [pystrip] at hlen
  have hq : validate_search_query request.search_query
      = .error "Search query too long (maximum 1000 characters)".data := by
    simp only [validate_search_query]
    rw [if_neg hne, if_neg (by omega), if_pos hlen]
  unfold invoke
  rw [if_neg (by simp)]
  simp only [invokeBody, hp, hq]

theorem long_query_error_response_witness :
    parseSearchRequest ⟨some (.pyStr (List.replicate 1001 'a')), none⟩
      = .ok ⟨List.replicate 1001 'a', none⟩
    ∧ 1000 < (pystrip (List.replicate 1001 'a')).length
    ∧ invoke true ⟨some (.pyStr (List.replicate 1001 'a')), none⟩
        ⟨false, false, .error (), .error ()⟩
      = create_error_response
          ("Invalid input: ".data
            ++ "Search query too long (maximum 1000 characters)".data) := by
  have h2 : 1000 < (pystrip (List.replicate 1001 'a')).length := by
    rw [pystrip_replicate_a, List.length_replicate]
    norm_num
  exact ⟨rfl, h2, long_query_error_response _ _ _ rfl h2⟩

/-- C10: the validator accepts a query consisting of a single non-whitespace
control character (U+0001) yet returns the empty sanitised query, because
sanitisation runs after the emptiness and length checks; the retriever then
takes its blank-query sentinel path on that empty query. -/
theorem control_char_query_sanitizes_empty :
    validate_search_query [Char.ofNat 1] = .ok []
    ∧ (∀ api : Except Unit ApiResponse,
        retrieve_and_generate [] api = sentinelResult) := by
  refine ⟨rfl, ?_⟩
  intro api
  unfold retrieve_and_generate
  rw [if_pos (show pystrip [] = [] from rfl)]

/-- C5 counterexample: a payload that supplies `user_id` as the empty string
is NOT rejected with an InvalidUserId error — `if request.user_id:` is a
truthiness test, so the empty string is treated as an anonymous request and
the pipeline runs to the knowledge-base stage (here yielding the sentinel
response, not the user-id error response). -/
theorem empty_user_id_not_rejected :
    invoke true ⟨some (.pyStr "hello".data), some (.pyStr [])⟩
        ⟨false, false, .error (), .error ()⟩
      = searchResponseDump []
          "No AI summary could be found for the specified query".data []
    ∧ invoke true ⟨some (.pyStr "hello".data), some (.pyStr [])⟩
        ⟨false, false, .error (), .error ()⟩
      ≠ create_error_response ("Invalid input: ".data
          ++ "User ID cannot be empty".data) := by
  constructor
  · decide
  · decide

/-- C5 amended: a supplied `user_id` that is a non-empty string but blank
after trimming fails with the user-id error and short-circuits the
pipeline; the exact empty string, however, is treated as anonymous. -/
theorem blank_user_id_rejected (payload : Payload) (o : Oracles)
    (request : SearchRequest) (u sq : Str)
    (hp : parseSearchRequest payload = .ok request)
    (hq : validate_search_query request.search_query = .ok sq)
    (hu : request.user_id = some u) (hune : u ≠ []) (hblank : pystrip u = []) :
    invoke true payload o
      = create_error_response ("Invalid input: ".data
          ++ "User ID cannot be empty".data) := by
  have hv : validate_user_id u = .error "User ID cannot be empty".data := by
    simp only [validate_user_id, hblank]
    rfl
  unfold invoke
  rw [if_neg (by simp)]
  simp only [invokeBody, hp, hq, hu]
  rw [if_pos hune, hv]
  rfl

theorem blank_user_id_rejected_witness :
    parseSearchRequest ⟨some (.pyStr "hello".data), some (.pyStr " ".data)⟩
      = .ok ⟨"hello".data, some " ".data⟩
    ∧ validate_search_query "hello".data = .ok "hello".data
    ∧ (" ".data : Str) ≠ []
    ∧ pystrip " ".data = []
    ∧ invoke true ⟨some (.pyStr "hello".data), some (.pyStr " ".data)⟩
        ⟨false, false, .error (), .error ()⟩
      = create_error_response ("Invalid input: ".data
          ++ "User ID cannot be empty".data) :=
  ⟨rfl, rfl, by decide, by decide,
   blank_user_id_rejected _ _ ⟨"hello".data, some " ".data⟩ " ".data "hello".data
     rfl rfl rfl (by decide) (by decide)⟩

/-- C6 counterexample: the accepted-set claim fails in the only-if
direction — the letter é is alphanumeric for Python, so the user id abcé
passes validation although é is not in the class listed by the spec. -/
theorem user_id_charset_not_ascii_only :
    validate_user_id "abcé".data = .ok "abcé".data
    ∧ ¬("abcé".data.all inAsciiIdSet = true) :=
  ⟨rfl, by decide⟩

/-- C6 amended: every supplied non-empty id of trimmed length at most 255
all of whose characters lie in `[A-Za-z0-9_-]` is accepted, and the two
concrete examples hold (`"abc-123_9"` accepted, `"abc@123"` rejected with
the invalid-characters error); but acceptance does not imply membership in
`[A-Za-z0-9_-]`, since Python's Unicode alphanumerics (such as `'é'`) are
also accepted. -/
theorem user_id_charset_validation :
    (∀ uid : Str, ¬pystrip uid = [] → (pystrip uid).length ≤ 255 →
        (pystrip uid).all inAsciiIdSet = true →
        validate_user_id uid = .ok (pystrip uid))
    ∧ validate_user_id "abc-123_9".data = .ok "abc-123_9".data
    ∧ validate_user_id "abc@123".data
        = .error "User ID contains invalid characters (only alphanumeric, hyphens, and underscores allowed)".data := by
  refine ⟨?_, rfl, rfl⟩
  intro uid hne hlen hall
  have hall' : (pystrip uid).all validUserIdChar = true := by
    rw [List.all_eq_true] at hall ⊢
    intro c hc
    exact inAsciiIdSet_validChar c (hall c hc)
  simp only [validate_user_id]
  rw [if_neg (by simpa [List.length_eq_zero] using hne), if_neg (by omega),
    if_pos hall']

theorem user_id_charset_validation_witness :
    ¬pystrip "user-1".data = []
    ∧ (pystrip "user-1".data).length ≤ 255
    ∧ (pystrip "user-1".data).all inAsciiIdSet = true
    ∧ validate_user_id "user-1".data = .ok (pystrip "user-1".data) :=
  ⟨by decide, by decide, by decide,
   user_id_charset_validation.1 "user-1".data (by decide) (by decide) (by decide)⟩

/-- C2 counterexample: for the response whose generated text is exactly
"search results" (non-blank, not a no-information phrase), the text cleanup
removes the whole text, so the produced result has an empty summary but
confidence 0.3 (computed from the pre-cleanup text) — the claimed invariant
"empty summary implies confidence 0" fails. -/
theorem empty_summary_invariant_fails :
    (retrieve_and_generate "what is x".data
        (.ok ⟨"search results".data, []⟩)).summary = []
    ∧ ¬(retrieve_and_generate "what is x".data
        (.ok ⟨"search results".data, []⟩)).confidence_score = 0 := by
  have hq : ¬pystrip "what is x".data = [] := by decide
  have hcond : ¬(pystrip (ApiResponse.mk "search results".data []).output_text = []
      ∨ pyLower (pystrip (ApiResponse.mk "search results".data []).output_text)
          ∈ noInfoPhrases) := by decide
  have hrg : retrieve_and_generate "what is x".data
      (.ok ⟨"search results".data, []⟩)
      = process_retrieval_response ⟨"search results".data, []⟩ := by
    unfold retrieve_and_generate
    rw [if_neg hq]
  have hpr : process_retrieval_response ⟨"search results".data, []⟩
      = ⟨clean_summary_text (pystrip "search results".data),
         extract_citations ⟨"search results".data, []⟩,
         calculate_confidence_score (pystrip "search results".data)
           (extract_citations ⟨"search results".data, []⟩)⟩ := by
    simp only [process_retrieval_response]
    rw [if_neg hcond]
  rw [hrg, hpr]
  constructor
  · decide
  · intro h0
    have h3 := calc_pos (pystrip "search results".data)
      (extract_citations ⟨"search results".data, []⟩) (by decide)
    have h0' : calculate_confidence_score (pystrip "search results".data)
        (extract_citations ⟨"search results".data, []⟩) = 0 := h0
    rw [h0'] at h3
    norm_num at h3

/-- C2 amended: the invariant holds in the converse direction — any result
of `retrieve_and_generate` with zero confidence is exactly the sentinel
(fixed no-result summary, empty citations); an empty summary, however, does
not force zero confidence, because the cleanup step can empty a non-empty
generated text whose confidence was computed before cleanup. -/
theorem zero_confidence_implies_sentinel (q : Str)
    (api : Except Unit ApiResponse)
    (h : (retrieve_and_generate q api).confidence_score = 0) :
    retrieve_and_generate q api = sentinelResult := by
  unfold retrieve_and_generate at h ⊢
  by_cases hq : pystrip q = []
  · rw [if_pos hq]
  · rw [if_neg hq] at h ⊢
    cases api with
    | error e => rfl
    | ok resp =>
      simp only [process_retrieval_response] at h ⊢
      by_cases hc : pystrip resp.output_text = []
          ∨ pyLower (pystrip resp.output_text) ∈ noInfoPhrases
      · rw [if_pos hc]
      · rw [if_neg hc] at h
        exfalso
        have h3 := calc_pos (pystrip resp.output_text) (extract_citations resp)
          (pystrip_pystrip_ne resp.output_text (fun hh => hc (Or.inl hh)))
        rw [show (RetrievalResult.mk (clean_summary_text (pystrip resp.output_text))
            (extract_citations resp)
            (calculate_confidence_score (pystrip resp.output_text)
              (extract_citations resp))).confidence_score
          = calculate_confidence_score (pystrip resp.output_text)
              (extract_citations resp) from rfl] at h
        rw [h] at h3
        norm_num at h3

theorem zero_confidence_implies_sentinel_witness :
    (retrieve_and_generate [] (.error ())).confidence_score = 0
    ∧ retrieve_and_generate [] (.error ()) = sentinelResult :=
  ⟨rfl, zero_confidence_implies_sentinel [] (.error ()) rfl⟩

/-- C7: the confidence computation agrees everywhere with the spec's
reference formula (blank text scores 0; otherwise base 0.3 with the five
additive bonuses, capped to [0, 1]), and on every non-sentinel path the
stored confidence is computed from the pre-cleanup generated text together
with the extracted citations, not from the cleaned summary. -/
theorem confidence_matches_spec_formula :
    (∀ (text : Str) (citations : List Str),
        calculate_confidence_score text citations
          = specConfidenceFormula text citations)
    ∧ (∀ resp : ApiResponse,
        ¬(pystrip resp.output_text = []
            ∨ pyLower (pystrip resp.output_text) ∈ noInfoPhrases) →
        (process_retrieval_response resp).confidence_score
          = calculate_confidence_score (pystrip resp.output_text)
              (extract_citations resp)) := by
  constructor
  · intro text citations
    by_cases h : pystrip text = []
    · simp only [calculate_confidence_score, specConfidenceFormula, if_pos h]
    · rw [calc_eq_raw text citations h]
      simp only [specConfidenceFormula, scoreRaw, if_neg h]
  · intro resp h
    simp only [process_retrieval_response]
    rw [if_neg h]

theorem confidence_matches_spec_formula_witness :
    ¬(pystrip "Cloud computing offers X.".data = []
        ∨ pyLower (pystrip "Cloud computing offers X.".data) ∈ noInfoPhrases)
    ∧ (process_retrieval_response ⟨"Cloud computing offers X.".data, []⟩).confidence_score
        = calculate_confidence_score (pystrip "Cloud computing offers X.".data)
            (extract_citations ⟨"Cloud computing offers X.".data, []⟩) :=
  ⟨by decide,
   confidence_matches_spec_formula.2 ⟨"Cloud computing offers X.".data, []⟩
     (by decide)⟩

/-- C8: the confidence score, as a function of text length (at fixed
citation count) and of citation count (at fixed text length), is
monotonically non-decreasing; it is bounded to [0, 1] on all inputs; a text
of length 50 with 0 citations scores exactly 0.3 and a text of length 350
with 6 citations scores exactly 1.0. -/
theorem confidence_monotone_bounded_values :
    (∀ n₁ n₂ c : Nat, n₁ ≤ n₂ → confidenceAt n₁ c ≤ confidenceAt n₂ c)
    ∧ (∀ n c₁ c₂ : Nat, c₁ ≤ c₂ → confidenceAt n c₁ ≤ confidenceAt n c₂)
    ∧ (∀ (text : Str) (citations : List Str),
        0 ≤ calculate_confidence_score text citations
        ∧ calculate_confidence_score text citations ≤ 1)
    ∧ confidenceAt 50 0 = 0.3 ∧ confidenceAt 350 6 = 1 := by
  refine ⟨?_, ?_, fun t c => ⟨calc_nonneg t c, calc_le_one t c⟩, ?_, ?_⟩
  · intro n₁ n₂ c h
    rw [confidenceAt_eq, confidenceAt_eq]
    by_cases h1 : n₁ = 0
    · rw [if_pos h1]
      by_cases h2 : n₂ = 0
      · rw [if_pos h2]
      · rw [if_neg h2, pymin_eq_min, pymax_eq_max]
        exact le_min (by norm_num) (le_max_left 0 _)
    · rw [if_neg h1, if_neg (by omega)]
      exact clamp_mono _ _ (scoreRaw_mono_left n₁ n₂ c h)
  · intro n c₁ c₂ h
    rw [confidenceAt_eq, confidenceAt_eq]
    by_cases hn : n = 0
    · rw [if_pos hn, if_pos hn]
    · rw [if_neg hn, if_neg hn]
      exact clamp_mono _ _ (scoreRaw_mono_right n c₁ c₂ h)
  · rw [confidenceAt_eq, if_neg (by norm_num),
      clamp_of_range _ (le_trans (by norm_num) (scoreRaw_ge _ _)) (scoreRaw_le _ _)]
    norm_num [scoreRaw]
  · rw [confidenceAt_eq, if_neg (by norm_num),
      clamp_of_range _ (le_trans (by norm_num) (scoreRaw_ge _ _)) (scoreRaw_le _ _)]
    norm_num [scoreRaw]

theorem confidence_monotone_bounded_values_witness :
    (3 : Nat) ≤ 5 ∧ confidenceAt 3 0 ≤ confidenceAt 5 0
    ∧ (0 : Nat) ≤ 4 ∧ confidenceAt 3 0 ≤ confidenceAt 3 4 :=
  ⟨by norm_num, confidence_monotone_bounded_values.1 3 5 0 (by norm_num),
   by norm_num, confidence_monotone_bounded_values.2.1 3 0 4 (by norm_num)⟩

/-- C9: extracted citations are exactly the first-seen deduplication of the
raw URI stream collected across the three location shapes and the metadata
scan (hence duplicate-free and first-seen ordered), and a response whose
references produce the URI stream [a, b, a, c] yields [a, b, c]. -/
theorem citations_nodup_first_seen :
    (∀ resp : ApiResponse,
        extract_citations resp = dedupFirstSeen (uriStream resp)
        ∧ (extract_citations resp).Nodup)
    ∧ uriStream dupUriResp
        = ["s3://bucket/a".data, "s3://bucket/b".data,
           "s3://bucket/a".data, "s3://bucket/c".data]
    ∧ extract_citations dupUriResp
        = ["s3://bucket/a".data, "s3://bucket/b".data, "s3://bucket/c".data] := by
  refine ⟨fun resp => ⟨extract_citations_eq resp, ?_⟩, by decide, by decide⟩
  rw [extract_citations_eq resp]
  exact dedupFirstSeen_nodup _
